import Mathlib

set_option maxRecDepth 4000

/-! Shallow embedding of the bridge-ui frontend (src/pages/index.tsx, current
revision, together with the earlier revision of the same page kept in the
repository): the network registry, the wallet connection routine, the balance
refresh routine and the transfer submission handler, followed by theorems
checking the specification claims against these definitions.

External collaborators (the browser wallet and the ethers v5 provider) are
modelled as an environment record listing the result of each external call in
program order; the handlers are deterministic interpreters over that record
which additionally return the trace of contract calls handed to the wallet. -/

/-- Error object surfaced by the wallet or the ethers provider; `code` mirrors
the `error.code` field that the submission handler inspects (empty string when
the thrown error carries no code). -/
structure EthError where
  code : String
  message : String
deriving DecidableEq, Repr

/-- Result vocabulary for one submission attempt.  The constructors
`notConnectedAlert`, `submitted`, `rejectedByUser`, `insufficientFunds` and
`failed` are the terminal paths of the code's submission handler (identified
by the distinct alert/console/throw sites of the source).  The constructors
`approvalReverted`, `transactionReverted` and `submissionInProgress` come from
the specification's outcome taxonomy and are included so that claims naming
them can be stated and compared with what the code actually produces; whether
any code path maps onto them is settled by the theorems below. -/
inductive TransferOutcome where
  | notConnectedAlert
  | submitted (hash : String)
  | rejectedByUser
  | insufficientFunds
  | failed (e : EthError)
  | approvalReverted
  | transactionReverted
  | submissionInProgress
deriving DecidableEq, Repr

inductive NetworkKey where
  | ethereum
  | subtensor
deriving DecidableEq, Repr

structure NativeCurrency where
  name : String
  symbol : String
  decimals : Nat
deriving DecidableEq, Repr

structure NetworkConfig where
  chainId : Nat
  chainName : String
  nativeCurrency : NativeCurrency
  rpcUrls : List String
deriving DecidableEq, Repr

/-- The NETWORKS table of the current revision of index.tsx. -/
def NETWORKS : NetworkKey → NetworkConfig
  | .ethereum => ⟨31337, "Local Ethereum", ⟨"Ether", "ETH", 18⟩, ["http://127.0.0.1:8545"]⟩
  | .subtensor => ⟨945, "Local Subtensor", ⟨"Subtensor", "TAO", 18⟩, ["http://127.0.0.1:9944"]⟩

def BRIDGE_ADDRESS : String := "0x71c95911e9a5d330f4d621842ec243ee1343292e"

def BRIDGED_TOKEN_ADDRESS : String := "0x5fbdb2315678afecb367f032d93f642f64180aa3"

def BRIDGE_ADDRESS_SUBTENSOR : String := "0x71c95911e9a5d330f4d621842ec243ee1343292e"

def BRIDGED_TOKEN_ADDRESS_SUBTENSOR : String := "0x5fbdb2315678afecb367f032d93f642f64180aa3"

/-- ethers.constants.AddressZero. -/
def AddressZero : String := "0x0000000000000000000000000000000000000000"

/-- Value of a list of decimal digit characters, most significant first. -/
def digitsToNat (cs : List Char) : Nat :=
  cs.foldl (fun a c => a * 10 + (c.toNat - 48)) 0

/-- Split a character list at every occurrence of a dot, mirroring the
`value.split(".")` step of ethers parseFixed. -/
def splitOnDot : List Char → List (List Char)
  | [] => [[]]
  | c :: rest =>
    match splitOnDot rest with
    | [] => [[]]
    | g :: gs => if c = '.' then [] :: g :: gs else (c :: g) :: gs

def numericFault : EthError := ⟨"NUMERIC_FAULT", "invalid decimal value"⟩

/-- ethers parseFixed with 18 decimals over the characters of the input:
the string must be nonempty and contain only digits and at most one dot; the
fractional part may have at most 18 digits and is right-padded to 18.  A
negative amount, which ethers itself parses only to fail when the result is
encoded as the uint256 argument of approve/requestTransfer, is folded into the
parse failure so that every branch of the handler stays a function. -/
def parseFixed18 (cs : List Char) : Except EthError Nat :=
  if cs = [] then .error numericFault
  else if ¬ (∀ c ∈ cs, c.isDigit = true ∨ c = '.') then .error numericFault
  else
    match splitOnDot cs with
    | [w] => .ok (digitsToNat w * 10 ^ 18)
    | [w, f] =>
      if f.length ≤ 18 then
        .ok (digitsToNat w * 10 ^ 18 + digitsToNat f * 10 ^ (18 - f.length))
      else .error numericFault
    | _ => .error numericFault

/-- ethers.utils.parseEther(values.amount): decimal string to base units with
the fixed 18-decimals assumption of the code. -/
def parseEtherM (s : String) : Except EthError Nat :=
  parseFixed18 s.data

/-- Leading decimal digits of a character list, if any. -/
def parseLeadingDigits (cs : List Char) : Option Nat :=
  let ds := cs.takeWhile Char.isDigit
  if ds = [] then none else some (digitsToNat ds)

/-- JavaScript parseInt(s) restricted to plain base-10 numerals as produced by
the form: optional sign followed by leading digits; `none` stands for NaN. -/
def parseIntJs (s : String) : Option Int :=
  match s.data with
  | '-' :: rest => (parseLeadingDigits rest).map (fun n => -(n : Int))
  | cs => (parseLeadingDigits cs).map (fun n => (n : Int))

def natToString (n : Nat) : String :=
  ⟨Nat.toDigits 10 n⟩

/-- Hexadecimal chain-id representation sent to the wallet:
`"0x" + chainId.toString(16)`. -/
def hexChainId (n : Nat) : String :=
  "0x" ++ String.mk (Nat.toDigits 16 n)

def stripTrailingZeros (cs : List Char) : List Char :=
  (cs.reverse.dropWhile (· = '0')).reverse

/-- ethers.utils.formatEther: base units to a decimal string with the trailing
zeros of the 18-digit fractional part stripped, keeping at least one
fractional digit. -/
def formatEtherM (n : Nat) : String :=
  let whole := Nat.toDigits 10 (n / 10 ^ 18)
  let fracRaw := Nat.toDigits 10 (n % 10 ^ 18)
  let frac := stripTrailingZeros (List.replicate (18 - fracRaw.length) '0' ++ fracRaw)
  ⟨whole ++ '.' :: (if frac = [] then ['0'] else frac)⟩

/-- ethers v5 semantics of `tx.wait()`: if the transaction is confirmed with
receipt status 0 (reverted), wait throws a CALL_EXCEPTION error instead of
returning the receipt; other environment failures (first component) propagate
unchanged. -/
def ethersWait (w : Except EthError Nat) : Except EthError Nat :=
  match w with
  | .error e => .error e
  | .ok status =>
    if status = 0 then .error ⟨"CALL_EXCEPTION", "transaction failed"⟩
    else .ok status

/-- React component state of Home that the embedded handlers read or write:
the provider handle (None when no provider is set, an opaque id otherwise),
the account, the loading flag, the two displayed balances, the current
network key as the source stores it, and the destination-chain form value
written by connectWallet. -/
structure AppState where
  provider : Option Nat
  account : String
  loading : Bool
  nativeBalance : String
  tokenBalance : String
  currentNetwork : String
  formDestChainId : String
deriving DecidableEq, Repr

/-- Validated form values handed to onSubmit in the current revision. -/
structure FormValues where
  amount : String
  transferType : String
  address : String
  destinationChainId : String
deriving DecidableEq, Repr

/-- Environment of one updateBalances call: results of provider.getBalance and
of the token contract's balanceOf read. -/
structure BalEnv where
  getBalance : Except EthError Nat
  balanceOf : Except EthError Nat

/-- updateBalances from index.tsx.  Both reads sit inside one try/catch: the
native read runs first and its formatted value is stored, then the token read
runs; any throw jumps to the catch which only logs.  The Bool records whether
the catch logged an error; no error escapes to the caller. -/
def updateBalancesM (st : AppState) (env : BalEnv) : AppState × Bool :=
  if st.provider = none ∨ st.account = "" then (st, false)
  else
    match env.getBalance with
    | .error _ => (st, true)
    | .ok b =>
      let st1 := { st with nativeBalance := formatEtherM b }
      match env.balanceOf with
      | .error _ => (st1, true)
      | .ok t => ({ st1 with tokenBalance := formatEtherM t }, false)

/-- A contract call handed to the wallet by the current revision's onSubmit,
with the transaction overrides the code attaches (`nonce = none` when the
code passes no explicit nonce and leaves assignment to the wallet). -/
inductive ChainCall where
  | approve (token spender : String) (amount gasPriceWei gasLimit : Nat)
      (nonce : Option Nat)
  | requestTransfer (bridge token toAddr : String) (amount : Nat)
      (destChainId : Option Int) (gasPriceWei gasLimit value : Nat)
      (nonce : Option Nat)
deriving DecidableEq, Repr

/-- Environment of one onSubmit call in the current revision, listing the
result of each external interaction in program order. -/
structure SubmitEnv where
  gasPrice : Except EthError Nat
  approveSend : Except EthError Unit
  approveReceipt : Except EthError Nat
  txCount : Except EthError Nat
  transferSend : Except EthError String
  transferReceipt : Except EthError Nat
  bal : BalEnv

/-- Bridge address selection of the current revision:
`currentNetwork === 'subtensor' ? BRIDGE_ADDRESS_SUBTENSOR : BRIDGE_ADDRESS`. -/
def bridgeAddrOf (st : AppState) : String :=
  if st.currentNetwork = "subtensor" then BRIDGE_ADDRESS_SUBTENSOR else BRIDGE_ADDRESS

/-- Token address selection of the current revision: the zero address in
native mode, otherwise the network's bridged-token address. -/
def tokenAddrOf (st : AppState) (values : FormValues) : String :=
  if values.transferType = "native" then AddressZero
  else if st.currentNetwork = "subtensor" then BRIDGED_TOKEN_ADDRESS_SUBTENSOR
  else BRIDGED_TOKEN_ADDRESS

/-- Transfer step of the current revision's onSubmit: fetch the signer's
transaction count, then inside the inner try submit requestTransfer with the
captured gas price, a 300000 gas limit, the amount as value exactly in native
mode, and the freshly fetched nonce; wait for confirmation; a status-0 receipt
is re-thrown as a plain Error.  The inner catch classifies the caught error by
its `code` field. -/
def transferStep (st : AppState) (values : FormValues) (env : SubmitEnv)
    (bridgeAddr tokenAddr : String) (amount : Nat) (isNative : Bool)
    (gasPriceWei : Nat) (prior : List ChainCall) :
    TransferOutcome × AppState × List ChainCall :=
  match env.txCount with
  | .error e => (.failed e, st, prior)
  | .ok nonce =>
    let destChainId := parseIntJs values.destinationChainId
    let call := ChainCall.requestTransfer bridgeAddr tokenAddr values.address
      amount destChainId gasPriceWei 300000 (if isNative then amount else 0)
      (some nonce)
    let calls := prior ++ [call]
    match env.transferSend with
    | .error e =>
      if e.code = "ACTION_REJECTED" then (.rejectedByUser, st, calls)
      else if e.code = "INSUFFICIENT_FUNDS" then (.insufficientFunds, st, calls)
      else (.failed e, st, calls)
    | .ok hash =>
      match ethersWait env.transferReceipt with
      | .error e =>
        if e.code = "ACTION_REJECTED" then (.rejectedByUser, st, calls)
        else if e.code = "INSUFFICIENT_FUNDS" then (.insufficientFunds, st, calls)
        else (.failed e, st, calls)
      | .ok status =>
        if status = 0 then (.failed ⟨"", "Transaction reverted"⟩, st, calls)
        else (.submitted hash, (updateBalancesM st env.bal).1, calls)

/-- Body of the current revision's onSubmit inside the outer try: parse the
amount with 18 decimals, capture the gas price, pick the token address, run
the approval step exactly in fungible-token mode (approve carries the captured
gas price and the 300000 gas limit but no explicit nonce; its confirmation
wait aborts the body when the approval reverted), then the transfer step.
Uncaught errors map to the generic outer-catch outcome `failed`. -/
def submitBody (st : AppState) (values : FormValues) (env : SubmitEnv) :
    TransferOutcome × AppState × List ChainCall :=
  let bridgeAddr := bridgeAddrOf st
  match parseEtherM values.amount with
  | .error e => (.failed e, st, [])
  | .ok amount =>
    match env.gasPrice with
    | .error e => (.failed e, st, [])
    | .ok gasPriceWei =>
      let tokenAddr := tokenAddrOf st values
      if values.transferType = "native" then
        transferStep st values env bridgeAddr tokenAddr amount true gasPriceWei []
      else
        let approveCall :=
          ChainCall.approve tokenAddr bridgeAddr amount gasPriceWei 300000 none
        match env.approveSend with
        | .error e => (.failed e, st, [approveCall])
        | .ok _ =>
          match ethersWait env.approveReceipt with
          | .error e => (.failed e, st, [approveCall])
          | .ok _ =>
            transferStep st values env bridgeAddr tokenAddr amount false
              gasPriceWei [approveCall]

/-- Result of one invocation of a submission handler: classified outcome,
final component state, contract calls handed to the wallet in order, and the
values passed to setLoading in order. -/
structure SubmitResult where
  outcome : TransferOutcome
  state : AppState
  calls : List ChainCall
  loadingEvents : List Bool
deriving DecidableEq, Repr

/-- onSubmit from the current revision of index.tsx: the connection
precondition guards everything; past it, setLoading(true) runs, the body runs
inside try, and the finally clause runs setLoading(false) on every path. -/
def submitIndex (st : AppState) (values : FormValues) (env : SubmitEnv) :
    SubmitResult :=
  if st.provider = none ∨ st.account = "" then
    ⟨.notConnectedAlert, st, [], []⟩
  else
    let r := submitBody { st with loading := true } values env
    ⟨r.1, { r.2.1 with loading := false }, r.2.2, [true, false]⟩

def callNonce : ChainCall → Option Nat
  | .approve _ _ _ _ _ n => n
  | .requestTransfer _ _ _ _ _ _ _ _ n => n

/-- Token addresses passed as the first argument of requestTransfer calls in a
trace. -/
def transferTokenArgs (cs : List ChainCall) : List String :=
  cs.filterMap fun c =>
    match c with
    | .requestTransfer _ tok _ _ _ _ _ _ _ => some tok
    | _ => none

/-- Token contract addresses targeted by approve calls in a trace. -/
def approveTokenArgs (cs : List ChainCall) : List String :=
  cs.filterMap fun c =>
    match c with
    | .approve tok _ _ _ _ _ => some tok
    | _ => none

/-- Validated form values handed to onSubmit in the earlier revision, whose
destination field is named chainId. -/
structure FormValuesOld where
  amount : String
  transferType : String
  address : String
  chainId : String
deriving DecidableEq, Repr

/-- A contract call of the earlier revision's onSubmit; there the
requestTransfer ABI is (to, amount, destChainId, isNative) and every call
carries an explicit nonce through txOptions. -/
inductive ChainCallOld where
  | approve (token spender : String) (amount gasPriceWei gasLimit nonce : Nat)
  | requestTransfer (bridge toAddr : String) (amount : Nat)
      (destChainId : Option Int) (isNative : Bool)
      (gasPriceWei gasLimit value nonce : Nat)
deriving DecidableEq, Repr

/-- Environment of one onSubmit call in the earlier revision, in program
order: there the transaction count is fetched before the gas price. -/
structure SubmitEnvOld where
  txCount : Except EthError Nat
  gasPrice : Except EthError Nat
  approveSend : Except EthError Unit
  approveReceipt : Except EthError Nat
  transferSend : Except EthError String
  transferReceipt : Except EthError Nat
  bal : BalEnv

structure SubmitResultOld where
  outcome : TransferOutcome
  state : AppState
  calls : List ChainCallOld
  loadingEvents : List Bool
deriving DecidableEq, Repr

/-- Transfer step of the earlier revision: spread txOptions (doubled gas
price, 300000 gas limit, current nonce value) plus the value field, call
requestTransfer(to, amount, destChainId, isNative) and wait.  The earlier
revision has no inner classification and no receipt-status check, so every
throw lands in the generic outer catch. -/
def oldTransferStep (st : AppState) (values : FormValuesOld)
    (env : SubmitEnvOld) (amount : Nat) (isNative : Bool)
    (gasPriceWei nonce : Nat) (prior : List ChainCallOld) :
    TransferOutcome × AppState × List ChainCallOld :=
  let call := ChainCallOld.requestTransfer BRIDGE_ADDRESS values.address amount
    (parseIntJs values.chainId) isNative gasPriceWei 300000
    (if isNative then amount else 0) nonce
  let calls := prior ++ [call]
  match env.transferSend with
  | .error e => (.failed e, st, calls)
  | .ok hash =>
    match ethersWait env.transferReceipt with
    | .error e => (.failed e, st, calls)
    | .ok _ => (.submitted hash, (updateBalancesM st env.bal).1, calls)

/-- Body of the earlier revision's onSubmit inside the outer try: parse the
amount, fetch the nonce, fetch and double the gas price, build txOptions once;
in fungible-token mode issue approve with those options and the captured
nonce, wait, then bump the nonce to nonce + 1 for the transfer. -/
def submitOldBody (st : AppState) (values : FormValuesOld)
    (env : SubmitEnvOld) : TransferOutcome × AppState × List ChainCallOld :=
  match parseEtherM values.amount with
  | .error e => (.failed e, st, [])
  | .ok amount =>
    match env.txCount with
    | .error e => (.failed e, st, [])
    | .ok nonce =>
      match env.gasPrice with
      | .error e => (.failed e, st, [])
      | .ok gasPriceWei =>
        let increasedGasPrice := gasPriceWei * 2
        if values.transferType = "native" then
          oldTransferStep st values env amount true increasedGasPrice nonce []
        else
          let approveCall := ChainCallOld.approve BRIDGED_TOKEN_ADDRESS
            BRIDGE_ADDRESS amount increasedGasPrice 300000 nonce
          match env.approveSend with
          | .error e => (.failed e, st, [approveCall])
          | .ok _ =>
            match ethersWait env.approveReceipt with
            | .error e => (.failed e, st, [approveCall])
            | .ok _ =>
              oldTransferStep st values env amount false increasedGasPrice
                (nonce + 1) [approveCall]

/-- onSubmit from the earlier revision: same connection guard, setLoading
bracket and generic outer catch as the current revision. -/
def submitOld (st : AppState) (values : FormValuesOld) (env : SubmitEnvOld) :
    SubmitResultOld :=
  if st.provider = none ∨ st.account = "" then
    ⟨.notConnectedAlert, st, [], []⟩
  else
    let r := submitOldBody { st with loading := true } values env
    ⟨r.1, { r.2.1 with loading := false }, r.2.2, [true, false]⟩

/-- Requests issued to the browser wallet by connectWallet, in order. -/
inductive WalletRequest where
  | addEthereumChain (chainId chainName currencyName currencySymbol : String)
      (currencyDecimals : Nat) (rpcUrls : List String)
  | switchEthereumChain (chainId : String)
  | requestAccounts
deriving DecidableEq, Repr

/-- Environment of one connectWallet call: whether window.ethereum exists and
the result of each wallet request and of the signer address lookup; a fresh
opaque id stands for the Web3Provider constructed on success. -/
structure ConnectEnv where
  ethereumInstalled : Bool
  addChain : Except EthError Unit
  switchChain : Except EthError Unit
  accountsRequest : Except EthError Unit
  newProviderId : Nat
  getAddress : Except EthError String

/-- connectWallet from the current revision of index.tsx.  Without a wallet it
only alerts.  Otherwise it issues wallet_addEthereumChain with the network's
parameters and the hexadecimal chain id; on failure it logs and returns
before any further request.  Then wallet_switchEthereumChain, with the same
early return.  Then eth_requestAccounts, a fresh Web3Provider (setProvider),
and the signer address (setAccount, setCurrentNetwork); finally it writes the
destination chain id form field, which the source computes as the chain id of
the network just connected to.  Any of the last throws lands in the outer
catch which only logs. -/
def connectWallet (st : AppState) (net : NetworkKey) (env : ConnectEnv) :
    AppState × List WalletRequest :=
  if env.ethereumInstalled = true then
    let cfg := NETWORKS net
    let hex := hexChainId cfg.chainId
    let addReq := WalletRequest.addEthereumChain hex cfg.chainName
      cfg.nativeCurrency.name cfg.nativeCurrency.symbol
      cfg.nativeCurrency.decimals cfg.rpcUrls
    match env.addChain with
    | .error _ => (st, [addReq])
    | .ok _ =>
      match env.switchChain with
      | .error _ => (st, [addReq, .switchEthereumChain hex])
      | .ok _ =>
        match env.accountsRequest with
        | .error _ => (st, [addReq, .switchEthereumChain hex, .requestAccounts])
        | .ok _ =>
          let st1 := { st with provider := some env.newProviderId }
          match env.getAddress with
          | .error _ => (st1, [addReq, .switchEthereumChain hex, .requestAccounts])
          | .ok addr =>
            let netStr : String :=
              match net with
              | .ethereum => "ethereum"
              | .subtensor => "subtensor"
            let destinationChainId :=
              if net = .ethereum then (NETWORKS .ethereum).chainId
              else (NETWORKS .subtensor).chainId
            ({ st1 with account := addr, currentNetwork := netStr,
                        formDestChainId := natToString destinationChainId },
              [addReq, .switchEthereumChain hex, .requestAccounts])
  else (st, [])

/-- Disabled attribute of the submit button in Home:
`disabled={loading || !account}`. -/
def submitButtonDisabled (st : AppState) : Bool :=
  st.loading || st.account == ""

/-- Submission as dispatched through the UI: clicking the submit button runs
onSubmit only when the button is not disabled; a disabled button swallows the
click, so no handler runs and nothing is issued. -/
def clickSubmit (st : AppState) (values : FormValues) (env : SubmitEnv) :
    Option SubmitResult :=
  if submitButtonDisabled st = true then none
  else some (submitIndex st values env)

/-! Concrete inputs used by the per-claim witnesses and counterexamples. -/

def stX1 : AppState := ⟨some 1, "0xacc", false, "1.0", "2.0", "ethereum", "945"⟩

def valsX1 : FormValues :=
  ⟨"10", "erc20", "0x3C44CdDdB6a900fa2b585dd299e03d12FA4293BC", "945"⟩

def envX1 : SubmitEnv :=
  ⟨.ok 3, .ok (), .ok 1, .ok 7, .ok "0xh1", .ok 1, ⟨.ok 0, .ok 0⟩⟩

def stX1O : AppState := ⟨some 1, "0xacc", false, "1.0", "2.0", "ethereum", "31338"⟩

def valsX1O : FormValuesOld :=
  ⟨"10", "erc20", "0x3C44CdDdB6a900fa2b585dd299e03d12FA4293BC", "31338"⟩

def envX1O : SubmitEnvOld :=
  ⟨.ok 7, .ok 3, .ok (), .ok 1, .ok "0xh1", .ok 1, ⟨.ok 0, .ok 0⟩⟩

def stW2 : AppState := ⟨some 1, "0xacc", false, "", "", "", ""⟩

def envW2 : ConnectEnv :=
  ⟨true, .error ⟨"", "user rejected chain addition"⟩, .ok (), .ok (), 2, .ok "0xacc"⟩

def stW3 : AppState := ⟨some 1, "0xacc", false, "1.0", "2.0", "ethereum", "945"⟩

def valsW3 : FormValues :=
  ⟨"1.5", "native", "0x3C44CdDdB6a900fa2b585dd299e03d12FA4293BC", "945"⟩

def envW3 : SubmitEnv :=
  ⟨.ok 5, .ok (), .ok 1, .ok 2, .ok "0xabc", .ok 1, ⟨.ok 0, .ok 0⟩⟩

def stW4 : AppState := ⟨some 1, "0xacc", false, "1.0", "2.0", "ethereum", "945"⟩

def envW4 : SubmitEnv :=
  ⟨.ok 5, .ok (), .ok 1, .ok 2, .ok "0xabc", .ok 1, ⟨.ok 0, .ok 0⟩⟩

def stW4O : AppState := ⟨some 1, "0xacc", false, "1.0", "2.0", "ethereum", "31338"⟩

def envW4O : SubmitEnvOld :=
  ⟨.ok 2, .ok 5, .ok (), .ok 1, .ok "0xabc", .ok 1, ⟨.ok 0, .ok 0⟩⟩

def stX5 : AppState := ⟨some 1, "0xacc", false, "1.0", "2.0", "ethereum", "945"⟩

def valsX5 : FormValues :=
  ⟨"10", "erc20", "0x3C44CdDdB6a900fa2b585dd299e03d12FA4293BC", "945"⟩

def envX5 : SubmitEnv :=
  ⟨.ok 5, .ok (), .ok 0, .ok 2, .ok "0xabc", .ok 1, ⟨.ok 0, .ok 0⟩⟩

def stX6 : AppState := ⟨some 1, "0xacc", false, "1.0", "2.0", "ethereum", "945"⟩

def valsX6 : FormValues :=
  ⟨"10", "erc20", "0x3C44CdDdB6a900fa2b585dd299e03d12FA4293BC", "945"⟩

def envX6 : SubmitEnv :=
  ⟨.ok 5, .error ⟨"ACTION_REJECTED", "user rejected the approval prompt"⟩,
    .ok 1, .ok 2, .ok "0xabc", .ok 1, ⟨.ok 0, .ok 0⟩⟩

def valsW6 : FormValues :=
  ⟨"1.5", "native", "0x3C44CdDdB6a900fa2b585dd299e03d12FA4293BC", "945"⟩

def envW6a : SubmitEnv :=
  ⟨.ok 5, .ok (), .ok 1, .ok 2, .error ⟨"ACTION_REJECTED", "denied"⟩, .ok 1,
    ⟨.ok 0, .ok 0⟩⟩

def envW6b : SubmitEnv :=
  ⟨.ok 5, .ok (), .ok 1, .ok 2, .ok "0xabc",
    .error ⟨"INSUFFICIENT_FUNDS", "balance too low"⟩, ⟨.ok 0, .ok 0⟩⟩

def stW6 : AppState := ⟨some 1, "0xacc", false, "1.0", "2.0", "ethereum", "945"⟩

def envW6c : SubmitEnv :=
  ⟨.ok 5, .ok (), .ok 1, .ok 2,
    .error ⟨"INSUFFICIENT_FUNDS", "cannot cover value plus gas"⟩, .ok 1,
    ⟨.ok 0, .ok 0⟩⟩

def envW6d : SubmitEnv :=
  ⟨.ok 5, .ok (), .ok 0, .ok 2, .ok "0xabc", .ok 1, ⟨.ok 0, .ok 0⟩⟩

def stX7 : AppState := ⟨some 1, "0xacc", true, "1.0", "2.0", "ethereum", "945"⟩

def valsX7 : FormValues :=
  ⟨"1.5", "native", "0x3C44CdDdB6a900fa2b585dd299e03d12FA4293BC", "945"⟩

def envX7 : SubmitEnv :=
  ⟨.ok 5, .ok (), .ok 1, .ok 2, .ok "0xhash2", .ok 1, ⟨.ok 0, .ok 0⟩⟩

def stX8 : AppState := ⟨some 1, "0xacc", false, "1.0", "2.0", "ethereum", "945"⟩

def envX8 : BalEnv := ⟨.error ⟨"", "rpc unreachable"⟩, .ok 3000000000000000000⟩

def envW8b : BalEnv := ⟨.ok 4000000000000000000, .error ⟨"", "token read failed"⟩⟩

def envW8c : BalEnv := ⟨.ok 4000000000000000000, .ok 3000000000000000000⟩

def stW9 : AppState := ⟨some 1, "0xacc", false, "1.0", "2.0", "ethereum", "945"⟩

def valsW9 : FormValues :=
  ⟨"10", "erc20", "0x3C44CdDdB6a900fa2b585dd299e03d12FA4293BC", "945"⟩

def envW9 : SubmitEnv :=
  ⟨.ok 5, .ok (), .ok 1, .ok 2, .ok "0xabc", .ok 1, ⟨.ok 0, .ok 0⟩⟩

def stW10 : AppState := ⟨some 1, "0xacc", false, "1.0", "2.0", "ethereum", "945"⟩

def valsW10 : FormValues :=
  ⟨"1.5", "native", "0x3C44CdDdB6a900fa2b585dd299e03d12FA4293BC", "945"⟩

def envW10 : SubmitEnv :=
  ⟨.ok 5, .ok (), .ok 1, .ok 2, .ok "0xabc", .ok 1, ⟨.ok 0, .ok 0⟩⟩

/-! Helper lemmas. -/

theorem splitOnDot_ne_nil (cs : List Char) : splitOnDot cs ≠ [] := by
  cases cs with
  | nil => simp [splitOnDot]
  | cons c rest =>
    simp only [splitOnDot]
    cases splitOnDot rest with
    | nil => simp
    | cons g gs => by_cases hc : c = '.' <;> simp [hc]

theorem not_dot_mem_of_digits {w : List Char}
    (hw : ∀ c ∈ w, c.isDigit = true) : '.' ∉ w :=
  fun h => absurd (hw _ h) (by decide)

theorem splitOnDot_no_dot (w : List Char) (hw : '.' ∉ w) :
    splitOnDot w = [w] := by
  induction w with
  | nil => simp [splitOnDot]
  | cons c rest ih =>
    have hc : ¬ c = '.' := fun h => hw (h ▸ List.mem_cons_self c rest)
    have hr : '.' ∉ rest := fun h => hw (List.mem_cons_of_mem _ h)
    simp [splitOnDot, ih hr, hc]

theorem splitOnDot_append (w f : List Char) (hw : '.' ∉ w) :
    splitOnDot (w ++ '.' :: f) = w :: splitOnDot f := by
  induction w with
  | nil =>
    simp only [List.nil_append, splitOnDot]
    cases h : splitOnDot f with
    | nil => exact absurd h (splitOnDot_ne_nil f)
    | cons g gs => simp
  | cons c rest ih =>
    have hc : ¬ c = '.' := fun h => hw (h ▸ List.mem_cons_self c rest)
    have hr : '.' ∉ rest := fun h => hw (List.mem_cons_of_mem _ h)
    have ihr := ih hr
    simp only [List.cons_append, splitOnDot, List.append_eq]
    rw [ihr]
    simp [hc]

theorem parseFixed18_whole (w : List Char) (hne : w ≠ [])
    (hw : ∀ c ∈ w, c.isDigit = true) :
    parseFixed18 w = .ok (digitsToNat w * 10 ^ 18) := by
  unfold parseFixed18
  rw [if_neg hne,
    if_neg (not_not_intro (fun c hc => Or.inl (hw c hc))),
    splitOnDot_no_dot w (not_dot_mem_of_digits hw)]

theorem parseFixed18_frac (w f : List Char)
    (hw : ∀ c ∈ w, c.isDigit = true) (hf : ∀ c ∈ f, c.isDigit = true)
    (hlen : f.length ≤ 18) :
    parseFixed18 (w ++ '.' :: f) =
      .ok (digitsToNat w * 10 ^ 18 + digitsToNat f * 10 ^ (18 - f.length)) := by
  have hne : w ++ '.' :: f ≠ [] := by simp
  have hall : ∀ c ∈ w ++ '.' :: f, c.isDigit = true ∨ c = '.' := by
    intro c hc
    rcases List.mem_append.1 hc with h | h
    · exact Or.inl (hw c h)
    · rcases List.mem_cons.1 h with h | h
      · exact Or.inr h
      · exact Or.inl (hf c h)
  unfold parseFixed18
  rw [if_neg hne, if_neg (not_not_intro hall),
    splitOnDot_append w f (not_dot_mem_of_digits hw),
    splitOnDot_no_dot f (not_dot_mem_of_digits hf)]
  simp [hlen]

theorem bridgeAddrOf_set_loading (st : AppState) (b : Bool) :
    bridgeAddrOf { st with loading := b } = bridgeAddrOf st := rfl

theorem tokenAddrOf_set_loading (st : AppState) (b : Bool) (v : FormValues) :
    tokenAddrOf { st with loading := b } v = tokenAddrOf st v := rfl

theorem transferStep_calls (st : AppState) (values : FormValues)
    (env : SubmitEnv) (ba ta : String) (amount : Nat) (inat : Bool) (g : Nat)
    (prior : List ChainCall) (n : Nat) (hn : env.txCount = .ok n) :
    (transferStep st values env ba ta amount inat g prior).2.2 =
      prior ++ [ChainCall.requestTransfer ba ta values.address amount
        (parseIntJs values.destinationChainId) g 300000
        (if inat then amount else 0) (some n)] := by
  simp only [transferStep, hn]
  rcases htr : env.transferSend with e | hsh <;> simp only [htr]
  · split_ifs <;> rfl
  · rcases hrr : ethersWait env.transferReceipt with e2 | s2 <;> simp only [hrr]
    · split_ifs <;> rfl
    · split_ifs <;> rfl

theorem transferStep_calls_err (st : AppState) (values : FormValues)
    (env : SubmitEnv) (ba ta : String) (amount : Nat) (inat : Bool) (g : Nat)
    (prior : List ChainCall) (e : EthError)
    (hn : env.txCount = .error e) :
    (transferStep st values env ba ta amount inat g prior).2.2 = prior := by
  simp only [transferStep, hn]

theorem submitIndex_fungible_calls (st : AppState) (values : FormValues)
    (env : SubmitEnv) (hp : st.provider ≠ none) (ha : st.account ≠ "")
    (hm : ¬ values.transferType = "native") (amt : Nat)
    (hamt : parseEtherM values.amount = .ok amt) (g : Nat)
    (hg : env.gasPrice = .ok g) (hap : env.approveSend = .ok ())
    (s : Nat) (hrc : env.approveReceipt = .ok s) (hs : s ≠ 0)
    (n : Nat) (hn : env.txCount = .ok n) :
    (submitIndex st values env).calls =
      [ChainCall.approve (tokenAddrOf st values) (bridgeAddrOf st) amt g
        300000 none,
       ChainCall.requestTransfer (bridgeAddrOf st) (tokenAddrOf st values)
        values.address amt (parseIntJs values.destinationChainId) g 300000 0
        (some n)] := by
  have hguard : ¬ (st.provider = none ∨ st.account = "") :=
    not_or.mpr ⟨hp, ha⟩
  have hw : ethersWait env.approveReceipt = .ok s := by
    simp [ethersWait, hrc, hs]
  have h1 : (submitIndex st values env).calls =
      (transferStep { st with loading := true } values env (bridgeAddrOf st)
        (tokenAddrOf st values) amt false g
        [ChainCall.approve (tokenAddrOf st values) (bridgeAddrOf st) amt g
          300000 none]).2.2 := by
    simp [submitIndex, submitBody, hguard, hamt, hg, hap, hw, hm,
      tokenAddrOf_set_loading, bridgeAddrOf_set_loading]
  rw [h1, transferStep_calls _ _ _ _ _ _ _ _ _ _ hn]
  rfl

theorem oldTransferStep_calls (st : AppState) (values : FormValuesOld)
    (env : SubmitEnvOld) (amount : Nat) (inat : Bool) (g nonce : Nat)
    (prior : List ChainCallOld) :
    (oldTransferStep st values env amount inat g nonce prior).2.2 =
      prior ++ [ChainCallOld.requestTransfer BRIDGE_ADDRESS values.address
        amount (parseIntJs values.chainId) inat g 300000
        (if inat then amount else 0) nonce] := by
  simp only [oldTransferStep]
  rcases htr : env.transferSend with e | hsh <;> simp only [htr]
  rcases hrr : ethersWait env.transferReceipt with e2 | s2 <;> simp only [hrr]

theorem submitOld_fungible_calls (st : AppState) (values : FormValuesOld)
    (env : SubmitEnvOld) (hp : st.provider ≠ none) (ha : st.account ≠ "")
    (hm : ¬ values.transferType = "native") (amt : Nat)
    (hamt : parseEtherM values.amount = .ok amt) (n : Nat)
    (hn : env.txCount = .ok n) (g : Nat) (hg : env.gasPrice = .ok g)
    (hap : env.approveSend = .ok ()) (s : Nat)
    (hrc : env.approveReceipt = .ok s) (hs : s ≠ 0) :
    (submitOld st values env).calls =
      [ChainCallOld.approve BRIDGED_TOKEN_ADDRESS BRIDGE_ADDRESS amt (g * 2)
        300000 n,
       ChainCallOld.requestTransfer BRIDGE_ADDRESS values.address amt
        (parseIntJs values.chainId) false (g * 2) 300000 0 (n + 1)] := by
  have hguard : ¬ (st.provider = none ∨ st.account = "") :=
    not_or.mpr ⟨hp, ha⟩
  have hw : ethersWait env.approveReceipt = .ok s := by
    simp [ethersWait, hrc, hs]
  have h1 : (submitOld st values env).calls =
      (oldTransferStep { st with loading := true } values env amt false
        (g * 2) (n + 1)
        [ChainCallOld.approve BRIDGED_TOKEN_ADDRESS BRIDGE_ADDRESS amt (g * 2)
          300000 n]).2.2 := by
    simp [submitOld, submitOldBody, hguard, hamt, hg, hap, hw, hm, hn]
  rw [h1, oldTransferStep_calls]
  rfl

/-! Claim theorems. -/

/-- C1 (corrected).  The original claim — nonce and gas price captured once
before the first transaction, approval using the captured nonce, transfer
nonce equal to approval nonce plus one — holds of the earlier revision only.
In the current revision the gas price alone is captured before the approval
and reused by both transactions; the approval is submitted without any
explicit nonce (assignment is left to the wallet) and the transfer carries
the account transaction count fetched only after the approval confirmed.
The two conjuncts exhibit the full call traces of the two revisions for a
fungible-token submission in which both transactions are issued. -/
theorem c1_nonce_gas_capture (st : AppState) (values : FormValues)
    (env : SubmitEnv) (stO : AppState) (valuesO : FormValuesOld)
    (envO : SubmitEnvOld) (hp : st.provider ≠ none) (ha : st.account ≠ "")
    (hm : ¬ values.transferType = "native") (amt : Nat)
    (hamt : parseEtherM values.amount = .ok amt) (g : Nat)
    (hg : env.gasPrice = .ok g) (hap : env.approveSend = .ok ()) (s : Nat)
    (hrc : env.approveReceipt = .ok s) (hs : s ≠ 0) (n : Nat)
    (hn : env.txCount = .ok n) (hpO : stO.provider ≠ none)
    (haO : stO.account ≠ "") (hmO : ¬ valuesO.transferType = "native")
    (amtO : Nat) (hamtO : parseEtherM valuesO.amount = .ok amtO) (nO : Nat)
    (hnO : envO.txCount = .ok nO) (gO : Nat) (hgO : envO.gasPrice = .ok gO)
    (hapO : envO.approveSend = .ok ()) (sO : Nat)
    (hrcO : envO.approveReceipt = .ok sO) (hsO : sO ≠ 0) :
    (submitIndex st values env).calls =
      [ChainCall.approve (tokenAddrOf st values) (bridgeAddrOf st) amt g
        300000 none,
       ChainCall.requestTransfer (bridgeAddrOf st) (tokenAddrOf st values)
        values.address amt (parseIntJs values.destinationChainId) g 300000 0
        (some n)] ∧
    (submitOld stO valuesO envO).calls =
      [ChainCallOld.approve BRIDGED_TOKEN_ADDRESS BRIDGE_ADDRESS amtO
        (gO * 2) 300000 nO,
       ChainCallOld.requestTransfer BRIDGE_ADDRESS valuesO.address amtO
        (parseIntJs valuesO.chainId) false (gO * 2) 300000 0 (nO + 1)] :=
  ⟨submitIndex_fungible_calls st values env hp ha hm amt hamt g hg hap s hrc
      hs n hn,
   submitOld_fungible_calls stO valuesO envO hpO haO hmO amtO hamtO nO hnO gO
      hgO hapO sO hrcO hsO⟩

/-- C1 witness: both conjuncts of the amended claim at concrete inputs. -/
theorem c1_witness :
    (submitIndex stX1 valsX1 envX1).calls =
      [ChainCall.approve (tokenAddrOf stX1 valsX1) (bridgeAddrOf stX1)
        10000000000000000000 3 300000 none,
       ChainCall.requestTransfer (bridgeAddrOf stX1) (tokenAddrOf stX1 valsX1)
        valsX1.address 10000000000000000000 (parseIntJs valsX1.destinationChainId)
        3 300000 0 (some 7)] ∧
    (submitOld stX1O valsX1O envX1O).calls =
      [ChainCallOld.approve BRIDGED_TOKEN_ADDRESS BRIDGE_ADDRESS
        10000000000000000000 (3 * 2) 300000 7,
       ChainCallOld.requestTransfer BRIDGE_ADDRESS valsX1O.address
        10000000000000000000 (parseIntJs valsX1O.chainId) false (3 * 2)
        300000 0 (7 + 1)] :=
  c1_nonce_gas_capture stX1 valsX1 envX1 stX1O valsX1O envX1O (by decide)
    (by decide) (by decide) 10000000000000000000 rfl 3 rfl rfl 1 rfl
    (by decide) 7 rfl (by decide) (by decide) (by decide)
    10000000000000000000 rfl 7 rfl 3 rfl rfl 1 rfl (by decide)

/-- C1 counterexample: in the current revision, a fungible-token submission
that issues both transactions attaches no nonce at all to the approval, so
the claimed pattern (approval at a pre-captured nonce n, transfer at n + 1)
is false of this run. -/
theorem c1_counterexample :
    (submitIndex stX1 valsX1 envX1).calls.map callNonce = [none, some 7] ∧
    ¬ ∃ n : Nat, (submitIndex stX1 valsX1 envX1).calls.map callNonce =
      [some n, some (n + 1)] := by
  refine ⟨by decide, ?_⟩
  rintro ⟨n, hn⟩
  have h : (submitIndex stX1 valsX1 envX1).calls.map callNonce =
      [none, some 7] := by decide
  rw [h] at hn
  simp at hn

/-- C2 (confirmed).  If the wallet is present and the network-registration
request (wallet_addEthereumChain) fails, connectWallet logs and returns: the
request trace contains exactly the registration request — no switch request
and no account-access request — and the component state, in particular the
connection context (account, currentNetwork, provider), is unchanged. -/
theorem c2_registration_failure_aborts (st : AppState) (net : NetworkKey)
    (env : ConnectEnv) (e : EthError) (hin : env.ethereumInstalled = true)
    (hadd : env.addChain = .error e) :
    connectWallet st net env =
      (st, [WalletRequest.addEthereumChain (hexChainId (NETWORKS net).chainId)
        (NETWORKS net).chainName (NETWORKS net).nativeCurrency.name
        (NETWORKS net).nativeCurrency.symbol
        (NETWORKS net).nativeCurrency.decimals (NETWORKS net).rpcUrls]) := by
  unfold connectWallet
  rw [if_pos hin, hadd]

/-- C2 witness at a concrete failing registration. -/
theorem c2_witness :
    connectWallet stW2 NetworkKey.ethereum envW2 =
      (stW2, [WalletRequest.addEthereumChain
        (hexChainId (NETWORKS .ethereum).chainId)
        (NETWORKS .ethereum).chainName
        (NETWORKS .ethereum).nativeCurrency.name
        (NETWORKS .ethereum).nativeCurrency.symbol
        (NETWORKS .ethereum).nativeCurrency.decimals
        (NETWORKS .ethereum).rpcUrls]) :=
  c2_registration_failure_aborts stW2 NetworkKey.ethereum envW2
    ⟨"", "user rejected chain addition"⟩ rfl rfl

/-- C3 (confirmed).  A native-mode submission that reaches confirmation with a
non-reverted receipt issues no approval call: the trace is exactly one
requestTransfer carrying the zero token address and the full base-unit amount
as the transaction value, and the outcome is Submitted with the hash. -/
theorem c3_native_submission (st : AppState) (values : FormValues)
    (env : SubmitEnv) (hp : st.provider ≠ none) (ha : st.account ≠ "")
    (hmode : values.transferType = "native") (amt : Nat)
    (hamt : parseEtherM values.amount = .ok amt) (g : Nat)
    (hg : env.gasPrice = .ok g) (n : Nat) (hn : env.txCount = .ok n)
    (hsh : String) (hsend : env.transferSend = .ok hsh) (s : Nat)
    (hrcpt : env.transferReceipt = .ok s) (hs : s ≠ 0) :
    (submitIndex st values env).outcome = .submitted hsh ∧
    (submitIndex st values env).calls =
      [ChainCall.requestTransfer (bridgeAddrOf st) AddressZero values.address
        amt (parseIntJs values.destinationChainId) g 300000 amt (some n)] := by
  have hguard : ¬ (st.provider = none ∨ st.account = "") :=
    not_or.mpr ⟨hp, ha⟩
  have hw : ethersWait env.transferReceipt = .ok s := by
    simp [ethersWait, hrcpt, hs]
  have hta : tokenAddrOf st values = AddressZero := by
    simp [tokenAddrOf, hmode]
  constructor <;>
    simp [submitIndex, submitBody, transferStep, hguard, hamt, hg, hmode, hn,
      hsend, hw, hs, hta, tokenAddrOf_set_loading, bridgeAddrOf_set_loading,
      tokenAddrOf]

/-- C3 witness: scenario A, amount 1.5 native from the ethereum network with
destination chain id 945. -/
theorem c3_witness :
    (submitIndex stW3 valsW3 envW3).outcome = .submitted "0xabc" ∧
    (submitIndex stW3 valsW3 envW3).calls =
      [ChainCall.requestTransfer (bridgeAddrOf stW3) AddressZero
        valsW3.address 1500000000000000000 (parseIntJs valsW3.destinationChainId)
        5 300000 1500000000000000000 (some 2)] :=
  c3_native_submission stW3 valsW3 envW3 (by decide) (by decide) rfl
    1500000000000000000 rfl 5 rfl 2 rfl "0xabc" rfl 1 rfl (by decide)

/-- C4 (confirmed).  The amount conversion uses exactly 18 decimals: any
whole digit string w converts to w·10^18 and any digit string pair w.f with
at most 18 fractional digits converts to w·10^18 + f·10^(18-len f); and for
scenario B (amount 10, fungible-token mode) both revisions issue exactly one
approval for 10·10^18 base units followed by exactly one transfer with value
0 and, in the earlier revision, an explicit isNative = false flag (the
current revision marks the mode by the nonzero token address instead). -/
theorem c4_eighteen_decimals :
    (∀ w : List Char, w ≠ [] → (∀ c ∈ w, c.isDigit = true) →
      parseEtherM ⟨w⟩ = .ok (digitsToNat w * 10 ^ 18)) ∧
    (∀ w f : List Char, (∀ c ∈ w, c.isDigit = true) →
      (∀ c ∈ f, c.isDigit = true) → f.length ≤ 18 →
      parseEtherM ⟨w ++ '.' :: f⟩ =
        .ok (digitsToNat w * 10 ^ 18 + digitsToNat f * 10 ^ (18 - f.length))) ∧
    (∀ (st : AppState) (env : SubmitEnv) (addr dcid : String) (g n s : Nat),
      st.provider ≠ none → st.account ≠ "" → env.gasPrice = .ok g →
      env.approveSend = .ok () → env.approveReceipt = .ok s → s ≠ 0 →
      env.txCount = .ok n →
      (submitIndex st ⟨"10", "erc20", addr, dcid⟩ env).calls =
        [ChainCall.approve (tokenAddrOf st ⟨"10", "erc20", addr, dcid⟩)
          (bridgeAddrOf st) 10000000000000000000 g 300000 none,
         ChainCall.requestTransfer (bridgeAddrOf st)
          (tokenAddrOf st ⟨"10", "erc20", addr, dcid⟩) addr
          10000000000000000000 (parseIntJs dcid) g 300000 0 (some n)] ∧
        tokenAddrOf st ⟨"10", "erc20", addr, dcid⟩ ≠ AddressZero) ∧
    (∀ (st : AppState) (env : SubmitEnvOld) (addr dcid : String) (g n s : Nat),
      st.provider ≠ none → st.account ≠ "" → env.txCount = .ok n →
      env.gasPrice = .ok g → env.approveSend = .ok () →
      env.approveReceipt = .ok s → s ≠ 0 →
      (submitOld st ⟨"10", "erc20", addr, dcid⟩ env).calls =
        [ChainCallOld.approve BRIDGED_TOKEN_ADDRESS BRIDGE_ADDRESS
          10000000000000000000 (g * 2) 300000 n,
         ChainCallOld.requestTransfer BRIDGE_ADDRESS addr
          10000000000000000000 (parseIntJs dcid) false (g * 2) 300000 0
          (n + 1)]) := by
  refine ⟨?_, ?_, ?_, ?_⟩
  · intro w hne hw
    exact parseFixed18_whole w hne hw
  · intro w f hw hf hlen
    exact parseFixed18_frac w f hw hf hlen
  · intro st env addr dcid g n s hp ha hg hap hrc hs hn
    refine ⟨submitIndex_fungible_calls st ⟨"10", "erc20", addr, dcid⟩ env hp
      ha (by simp) 10000000000000000000 rfl g hg hap s hrc hs n hn, ?_⟩
    have hta : tokenAddrOf st ⟨"10", "erc20", addr, dcid⟩ =
        (if st.currentNetwork = "subtensor" then BRIDGED_TOKEN_ADDRESS_SUBTENSOR
         else BRIDGED_TOKEN_ADDRESS) := by
      simp [tokenAddrOf]
    rw [hta]
    split_ifs <;> decide
  · intro st env addr dcid g n s hp ha hn hg hap hrc hs
    exact submitOld_fungible_calls st ⟨"10", "erc20", addr, dcid⟩ env hp ha
      (by simp) 10000000000000000000 rfl n hn g hg hap s hrc hs

/-- C4 witness: the conversion at 10 and at 1.5, and scenario B in both
revisions at concrete environments. -/
theorem c4_witness :
    parseEtherM ⟨['1', '0']⟩ = .ok (digitsToNat ['1', '0'] * 10 ^ 18) ∧
    parseEtherM ⟨['1'] ++ '.' :: ['5']⟩ =
      .ok (digitsToNat ['1'] * 10 ^ 18 +
        digitsToNat ['5'] * 10 ^ (18 - (['5'] : List Char).length)) ∧
    ((submitIndex stW4 ⟨"10", "erc20", "0xdead", "945"⟩ envW4).calls =
      [ChainCall.approve (tokenAddrOf stW4 ⟨"10", "erc20", "0xdead", "945"⟩)
        (bridgeAddrOf stW4) 10000000000000000000 5 300000 none,
       ChainCall.requestTransfer (bridgeAddrOf stW4)
        (tokenAddrOf stW4 ⟨"10", "erc20", "0xdead", "945"⟩) "0xdead"
        10000000000000000000 (parseIntJs "945") 5 300000 0 (some 2)] ∧
      tokenAddrOf stW4 ⟨"10", "erc20", "0xdead", "945"⟩ ≠ AddressZero) ∧
    (submitOld stW4O ⟨"10", "erc20", "0xdead", "945"⟩ envW4O).calls =
      [ChainCallOld.approve BRIDGED_TOKEN_ADDRESS BRIDGE_ADDRESS
        10000000000000000000 (5 * 2) 300000 2,
       ChainCallOld.requestTransfer BRIDGE_ADDRESS "0xdead"
        10000000000000000000 (parseIntJs "945") false (5 * 2) 300000 0
        (2 + 1)] :=
  ⟨c4_eighteen_decimals.1 ['1', '0'] (by decide) (by decide),
   c4_eighteen_decimals.2.1 ['1'] ['5'] (by decide) (by decide) (by decide),
   c4_eighteen_decimals.2.2.1 stW4 envW4 "0xdead" "945" 5 2 1 (by decide)
     (by decide) rfl rfl rfl (by decide) rfl,
   c4_eighteen_decimals.2.2.2 stW4O envW4O "0xdead" "945" 5 2 1 (by decide)
     (by decide) rfl rfl rfl rfl (by decide)⟩

/-- C5 (corrected).  When the approval confirms with failure status the
submission does abort before the transfer — the ethers wait throws a
CALL_EXCEPTION which nothing catches until the generic outer handler — so
the trace is exactly the approval call and no requestTransfer is ever
issued; but the surfaced outcome is the generic failure carrying the
CALL_EXCEPTION error, not a distinct ApprovalReverted classification. -/
theorem c5_approval_revert_aborts (st : AppState) (values : FormValues)
    (env : SubmitEnv) (hp : st.provider ≠ none) (ha : st.account ≠ "")
    (hm : ¬ values.transferType = "native") (amt : Nat)
    (hamt : parseEtherM values.amount = .ok amt) (g : Nat)
    (hg : env.gasPrice = .ok g) (hap : env.approveSend = .ok ())
    (hrc : env.approveReceipt = .ok 0) :
    (submitIndex st values env).outcome =
      .failed ⟨"CALL_EXCEPTION", "transaction failed"⟩ ∧
    (submitIndex st values env).calls =
      [ChainCall.approve (tokenAddrOf st values) (bridgeAddrOf st) amt g
        300000 none] ∧
    transferTokenArgs (submitIndex st values env).calls = [] := by
  have hguard : ¬ (st.provider = none ∨ st.account = "") :=
    not_or.mpr ⟨hp, ha⟩
  have hw : ethersWait env.approveReceipt =
      .error ⟨"CALL_EXCEPTION", "transaction failed"⟩ := by
    simp [ethersWait, hrc]
  refine ⟨?_, ?_, ?_⟩ <;>
    simp [submitIndex, submitBody, hguard, hamt, hg, hap, hw, hm,
      tokenAddrOf_set_loading, bridgeAddrOf_set_loading, transferTokenArgs]

/-- C5 witness: concrete fungible-token run whose approval reverts. -/
theorem c5_witness :
    (submitIndex stX5 valsX5 envX5).outcome =
      .failed ⟨"CALL_EXCEPTION", "transaction failed"⟩ ∧
    (submitIndex stX5 valsX5 envX5).calls =
      [ChainCall.approve (tokenAddrOf stX5 valsX5) (bridgeAddrOf stX5)
        10000000000000000000 5 300000 none] ∧
    transferTokenArgs (submitIndex stX5 valsX5 envX5).calls = [] :=
  c5_approval_revert_aborts stX5 valsX5 envX5 (by decide) (by decide)
    (by decide) 10000000000000000000 rfl 5 rfl rfl rfl

/-- C5 counterexample: at the same concrete run the outcome is not the
ApprovalReverted classification the claim names — the abort surfaces as the
generic failure outcome — although the transfer is indeed never issued. -/
theorem c5_counterexample :
    (submitIndex stX5 valsX5 envX5).outcome ≠
      TransferOutcome.approvalReverted ∧
    (submitIndex stX5 valsX5 envX5).outcome =
      .failed ⟨"CALL_EXCEPTION", "transaction failed"⟩ := by
  constructor
  · intro h
    have h2 : (submitIndex stX5 valsX5 envX5).outcome =
        .failed ⟨"CALL_EXCEPTION", "transaction failed"⟩ := by decide
    rw [h2] at h
    cases h
  · decide

theorem transferStep_outcome_send_err (st : AppState) (values : FormValues)
    (env : SubmitEnv) (ba ta : String) (amount : Nat) (inat : Bool)
    (g : Nat) (prior : List ChainCall) (n : Nat) (e : EthError)
    (hn : env.txCount = .ok n) (htr : env.transferSend = .error e) :
    (transferStep st values env ba ta amount inat g prior).1 =
      (if e.code = "ACTION_REJECTED" then .rejectedByUser
       else if e.code = "INSUFFICIENT_FUNDS" then .insufficientFunds
       else .failed e) := by
  simp only [transferStep, hn, htr]
  split_ifs <;> rfl

theorem transferStep_outcome_wait_err (st : AppState) (values : FormValues)
    (env : SubmitEnv) (ba ta : String) (amount : Nat) (inat : Bool)
    (g : Nat) (prior : List ChainCall) (n : Nat) (hsh : String)
    (e : EthError) (hn : env.txCount = .ok n)
    (htr : env.transferSend = .ok hsh)
    (hw : ethersWait env.transferReceipt = .error e) :
    (transferStep st values env ba ta amount inat g prior).1 =
      (if e.code = "ACTION_REJECTED" then .rejectedByUser
       else if e.code = "INSUFFICIENT_FUNDS" then .insufficientFunds
       else .failed e) := by
  simp only [transferStep, hn, htr, hw]
  split_ifs <;> rfl

theorem submitIndex_outcome_transfer_step (st : AppState)
    (values : FormValues) (env : SubmitEnv) (hp : st.provider ≠ none)
    (ha : st.account ≠ "") (amt : Nat)
    (hamt : parseEtherM values.amount = .ok amt) (g : Nat)
    (hg : env.gasPrice = .ok g)
    (happ : ¬ values.transferType = "native" →
      env.approveSend = .ok () ∧ ∃ s, env.approveReceipt = .ok s ∧ s ≠ 0) :
    ∃ (inat : Bool) (prior : List ChainCall),
      (submitIndex st values env).outcome =
        (transferStep { st with loading := true } values env (bridgeAddrOf st)
          (tokenAddrOf st values) amt inat g prior).1 := by
  have hguard : ¬ (st.provider = none ∨ st.account = "") :=
    not_or.mpr ⟨hp, ha⟩
  by_cases hM : values.transferType = "native"
  · refine ⟨true, [], ?_⟩
    simp [submitIndex, submitBody, hguard, hamt, hg, hM,
      tokenAddrOf_set_loading, bridgeAddrOf_set_loading]
  · obtain ⟨hap, s, hrc, hs⟩ := happ hM
    have hw : ethersWait env.approveReceipt = .ok s := by
      simp [ethersWait, hrc, hs]
    refine ⟨false, [ChainCall.approve (tokenAddrOf st values)
      (bridgeAddrOf st) amt g 300000 none], ?_⟩
    simp [submitIndex, submitBody, hguard, hamt, hg, hM, hap, hw,
      tokenAddrOf_set_loading, bridgeAddrOf_set_loading]

/-- C6 (corrected).  The error classification by wallet code — user
declined prompt to RejectedByUser, insufficient funds to InsufficientFunds,
anything else to the generic Failed with the underlying error — exists only
around the transfer call: in either transfer mode (an approval, when one is
required, having succeeded), a failure of the transfer submission or of its
confirmation wait is classified by its code; a failure anywhere in the
approval step — the approve submission or its confirmation wait, a reverted
approval included — is never classified: whatever its code, it surfaces as
the generic Failed outcome. -/
theorem c6_error_classification :
    (∀ (st : AppState) (values : FormValues) (env : SubmitEnv) (e : EthError),
      st.provider ≠ none → st.account ≠ "" →
      (∃ amt, parseEtherM values.amount = .ok amt) →
      (∃ g, env.gasPrice = .ok g) →
      (¬ values.transferType = "native" →
        env.approveSend = .ok () ∧ ∃ s, env.approveReceipt = .ok s ∧ s ≠ 0) →
      (∃ n, env.txCount = .ok n) →
      env.transferSend = .error e →
      (submitIndex st values env).outcome =
        (if e.code = "ACTION_REJECTED" then .rejectedByUser
         else if e.code = "INSUFFICIENT_FUNDS" then .insufficientFunds
         else .failed e)) ∧
    (∀ (st : AppState) (values : FormValues) (env : SubmitEnv) (e : EthError),
      st.provider ≠ none → st.account ≠ "" →
      (∃ amt, parseEtherM values.amount = .ok amt) →
      (∃ g, env.gasPrice = .ok g) →
      (¬ values.transferType = "native" →
        env.approveSend = .ok () ∧ ∃ s, env.approveReceipt = .ok s ∧ s ≠ 0) →
      (∃ n, env.txCount = .ok n) →
      (∃ hsh, env.transferSend = .ok hsh) →
      env.transferReceipt = .error e →
      (submitIndex st values env).outcome =
        (if e.code = "ACTION_REJECTED" then .rejectedByUser
         else if e.code = "INSUFFICIENT_FUNDS" then .insufficientFunds
         else .failed e)) ∧
    (∀ (st : AppState) (values : FormValues) (env : SubmitEnv) (e : EthError),
      st.provider ≠ none → st.account ≠ "" →
      ¬ values.transferType = "native" →
      (∃ amt, parseEtherM values.amount = .ok amt) →
      (∃ g, env.gasPrice = .ok g) →
      (env.approveSend = .error e ∨
        (env.approveSend = .ok () ∧
          ethersWait env.approveReceipt = .error e)) →
      (submitIndex st values env).outcome = .failed e) := by
  refine ⟨?_, ?_, ?_⟩
  · rintro st values env e hp ha ⟨amt, hamt⟩ ⟨g, hg⟩ happ ⟨n, hn⟩ htr
    obtain ⟨inat, prior, hout⟩ :=
      submitIndex_outcome_transfer_step st values env hp ha amt hamt g hg happ
    rw [hout]
    exact transferStep_outcome_send_err _ _ _ _ _ _ _ _ _ _ _ hn htr
  · rintro st values env e hp ha ⟨amt, hamt⟩ ⟨g, hg⟩ happ ⟨n, hn⟩ ⟨hsh, htr⟩
      hrr
    have hw : ethersWait env.transferReceipt = .error e := by
      simp [ethersWait, hrr]
    obtain ⟨inat, prior, hout⟩ :=
      submitIndex_outcome_transfer_step st values env hp ha amt hamt g hg happ
    rw [hout]
    exact transferStep_outcome_wait_err _ _ _ _ _ _ _ _ _ _ _ _ hn htr hw
  · rintro st values env e hp ha hmode ⟨amt, hamt⟩ ⟨g, hg⟩ hfail
    have hguard : ¬ (st.provider = none ∨ st.account = "") :=
      not_or.mpr ⟨hp, ha⟩
    rcases hfail with hap | ⟨hap, hw⟩
    · simp [submitIndex, submitBody, hguard, hamt, hg, hmode, hap]
    · simp [submitIndex, submitBody, hguard, hamt, hg, hmode, hap, hw]

/-- C6 witness: the parts of the amended classification at concrete runs —
a declined transfer prompt in native mode, an insufficient-funds transfer
failure in fungible-token mode after a successful approval, an
insufficient-funds transfer confirmation failure, a declined approval
prompt, and a reverted approval confirmation, the last two both surfacing
as the generic Failed. -/
theorem c6_witness :
    (submitIndex stW6 valsW6 envW6a).outcome = .rejectedByUser ∧
    (submitIndex stW6 valsX6 envW6c).outcome = .insufficientFunds ∧
    (submitIndex stW6 valsW6 envW6b).outcome = .insufficientFunds ∧
    (submitIndex stX6 valsX6 envX6).outcome =
      .failed ⟨"ACTION_REJECTED", "user rejected the approval prompt"⟩ ∧
    (submitIndex stW6 valsX6 envW6d).outcome =
      .failed ⟨"CALL_EXCEPTION", "transaction failed"⟩ :=
  ⟨c6_error_classification.1 stW6 valsW6 envW6a
      ⟨"ACTION_REJECTED", "denied"⟩ (by decide) (by decide)
      ⟨1500000000000000000, rfl⟩ ⟨5, rfl⟩ (fun h => absurd rfl h)
      ⟨2, rfl⟩ rfl,
   c6_error_classification.1 stW6 valsX6 envW6c
      ⟨"INSUFFICIENT_FUNDS", "cannot cover value plus gas"⟩ (by decide)
      (by decide) ⟨10000000000000000000, rfl⟩ ⟨5, rfl⟩
      (fun _ => ⟨rfl, 1, rfl, by decide⟩) ⟨2, rfl⟩ rfl,
   c6_error_classification.2.1 stW6 valsW6 envW6b
      ⟨"INSUFFICIENT_FUNDS", "balance too low"⟩ (by decide) (by decide)
      ⟨1500000000000000000, rfl⟩ ⟨5, rfl⟩ (fun h => absurd rfl h)
      ⟨2, rfl⟩ ⟨"0xabc", rfl⟩ rfl,
   c6_error_classification.2.2 stX6 valsX6 envX6
      ⟨"ACTION_REJECTED", "user rejected the approval prompt"⟩ (by decide)
      (by decide) (by decide) ⟨10000000000000000000, rfl⟩ ⟨5, rfl⟩
      (Or.inl rfl),
   c6_error_classification.2.2 stW6 valsX6 envW6d
      ⟨"CALL_EXCEPTION", "transaction failed"⟩ (by decide) (by decide)
      (by decide) ⟨10000000000000000000, rfl⟩ ⟨5, rfl⟩
      (Or.inr ⟨rfl, rfl⟩)⟩

/-- C6 counterexample: a user-declined approval prompt (ACTION_REJECTED at
the approval step) is not classified as RejectedByUser; it surfaces as the
generic Failed outcome, refuting the claim that classification applies at
either on-chain step. -/
theorem c6_counterexample :
    (submitIndex stX6 valsX6 envX6).outcome =
      .failed ⟨"ACTION_REJECTED", "user rejected the approval prompt"⟩ ∧
    (submitIndex stX6 valsX6 envX6).outcome ≠
      TransferOutcome.rejectedByUser := by
  constructor
  · decide
  · intro h
    have h2 : (submitIndex stX6 valsX6 envX6).outcome =
        .failed ⟨"ACTION_REJECTED", "user rejected the approval prompt"⟩ := by
      decide
    rw [h2] at h
    cases h

/-- C7 (corrected).  Mutual exclusion is enforced by the UI, not by the
handler: while a submission is in flight (loading = true) the submit button
is disabled, so a click dispatches nothing — no second handler run, no
second on-chain call.  There is no SubmissionInProgress rejection anywhere:
onSubmit itself never checks the busy flag, as the counterexample shows. -/
theorem c7_busy_button_gate (st : AppState) (values : FormValues)
    (env : SubmitEnv) (hl : st.loading = true) :
    submitButtonDisabled st = true ∧ clickSubmit st values env = none := by
  have hd : submitButtonDisabled st = true := by
    simp [submitButtonDisabled, hl]
  exact ⟨hd, by simp [clickSubmit, hd]⟩

/-- C7 witness: with a submission in flight the button is disabled and the
click dispatches nothing. -/
theorem c7_witness :
    submitButtonDisabled stX7 = true ∧ clickSubmit stX7 valsX7 envX7 = none :=
  c7_busy_button_gate stX7 valsX7 envX7 rfl

/-- C7 counterexample: invoking onSubmit directly while the busy flag is set
(loading = true in stX7) is not rejected with SubmissionInProgress and does
start an on-chain sequence — the handler performs no in-flight check. -/
theorem c7_counterexample :
    (submitIndex stX7 valsX7 envX7).outcome ≠
      TransferOutcome.submissionInProgress ∧
    (submitIndex stX7 valsX7 envX7).calls ≠ [] ∧
    (submitIndex stX7 valsX7 envX7).outcome = .submitted "0xhash2" := by
  refine ⟨?_, ?_, by decide⟩
  · intro h
    have h2 : (submitIndex stX7 valsX7 envX7).outcome = .submitted "0xhash2" := by
      decide
    rw [h2] at h
    cases h
  · intro h
    have h2 : (submitIndex stX7 valsX7 envX7).calls.length = 1 := by decide
    rw [h] at h2
    cases h2

/-- C8 (corrected).  Both balance reads sit in a single try/catch, so they
are not independent: a token-read failure still leaves the already-stored
native balance updated and only the token balance at its previous value, but
a native-read failure aborts the whole refresh and leaves both balances at
their previous values — the token read is never attempted.  In every case
the failure is only logged (second component) and updateBalancesM is total,
so no error reaches the caller. -/
theorem c8_balance_reads (st : AppState) (env : BalEnv)
    (hp : st.provider ≠ none) (ha : st.account ≠ "") :
    (∀ e, env.getBalance = .error e → updateBalancesM st env = (st, true)) ∧
    (∀ b e, env.getBalance = .ok b → env.balanceOf = .error e →
      updateBalancesM st env =
        ({ st with nativeBalance := formatEtherM b }, true)) ∧
    (∀ b t, env.getBalance = .ok b → env.balanceOf = .ok t →
      updateBalancesM st env =
        ({ st with nativeBalance := formatEtherM b,
                   tokenBalance := formatEtherM t }, false)) := by
  have hguard : ¬ (st.provider = none ∨ st.account = "") :=
    not_or.mpr ⟨hp, ha⟩
  refine ⟨?_, ?_, ?_⟩
  · intro e hb
    simp [updateBalancesM, hguard, hb]
  · intro b e hb ht
    simp [updateBalancesM, hguard, hb, ht]
  · intro b t hb ht
    simp [updateBalancesM, hguard, hb, ht]

/-- C8 witness: the three branches of the amended claim at concrete reads. -/
theorem c8_witness :
    updateBalancesM stX8 envX8 = (stX8, true) ∧
    updateBalancesM stX8 envW8b =
      ({ stX8 with nativeBalance := formatEtherM 4000000000000000000 }, true) ∧
    updateBalancesM stX8 envW8c =
      ({ stX8 with nativeBalance := formatEtherM 4000000000000000000,
                   tokenBalance := formatEtherM 3000000000000000000 }, false) :=
  ⟨(c8_balance_reads stX8 envX8 (by decide) (by decide)).1
      ⟨"", "rpc unreachable"⟩ rfl,
   (c8_balance_reads stX8 envW8b (by decide) (by decide)).2.1
      4000000000000000000 ⟨"", "token read failed"⟩ rfl rfl,
   (c8_balance_reads stX8 envW8c (by decide) (by decide)).2.2
      4000000000000000000 3000000000000000000 rfl rfl⟩

/-- C8 counterexample: the native read fails while the token read would have
returned 3·10^18 (displayed as 3.0); the token balance nevertheless keeps
its previous value 2.0 instead of being updated, refuting independence of
the two reads. -/
theorem c8_counterexample :
    (updateBalancesM stX8 envX8).1.tokenBalance = "2.0" ∧
    formatEtherM 3000000000000000000 = "3.0" ∧
    (updateBalancesM stX8 envX8).1.tokenBalance ≠
      formatEtherM 3000000000000000000 := by
  refine ⟨by decide, by decide, by decide⟩

theorem submitIndex_calls_shape (st : AppState) (values : FormValues)
    (env : SubmitEnv) (hp : st.provider ≠ none) (ha : st.account ≠ "") :
    ∃ amt g,
      (submitIndex st values env).calls = [] ∨
      (¬ values.transferType = "native" ∧
        (submitIndex st values env).calls =
          [ChainCall.approve (tokenAddrOf st values) (bridgeAddrOf st) amt g
            300000 none]) ∨
      (values.transferType = "native" ∧ ∃ n,
        (submitIndex st values env).calls =
          [ChainCall.requestTransfer (bridgeAddrOf st) (tokenAddrOf st values)
            values.address amt (parseIntJs values.destinationChainId) g
            300000 amt (some n)]) ∨
      (¬ values.transferType = "native" ∧ ∃ n,
        (submitIndex st values env).calls =
          [ChainCall.approve (tokenAddrOf st values) (bridgeAddrOf st) amt g
            300000 none,
           ChainCall.requestTransfer (bridgeAddrOf st) (tokenAddrOf st values)
            values.address amt (parseIntJs values.destinationChainId) g
            300000 0 (some n)]) := by
  have hguard : ¬ (st.provider = none ∨ st.account = "") :=
    not_or.mpr ⟨hp, ha⟩
  have hcalls : (submitIndex st values env).calls =
      (submitBody { st with loading := true } values env).2.2 := by
    simp [submitIndex, hguard]
  rcases hA : parseEtherM values.amount with e | amt
  · exact ⟨0, 0, Or.inl (by simp [hcalls, submitBody, hA])⟩
  rcases hG : env.gasPrice with e | g
  · exact ⟨amt, 0, Or.inl (by simp [hcalls, submitBody, hA, hG])⟩
  refine ⟨amt, g, ?_⟩
  by_cases hM : values.transferType = "native"
  · rcases hN : env.txCount with e | n
    · refine Or.inl ?_
      rw [hcalls]
      have hstep : (submitBody { st with loading := true } values env).2.2 =
          (transferStep { st with loading := true } values env
            (bridgeAddrOf st) (tokenAddrOf st values) amt true g []).2.2 := by
        simp [submitBody, hA, hG, hM, tokenAddrOf_set_loading,
          bridgeAddrOf_set_loading]
      rw [hstep, transferStep_calls_err _ _ _ _ _ _ _ _ _ _ hN]
    · refine Or.inr (Or.inr (Or.inl ⟨hM, n, ?_⟩))
      rw [hcalls]
      have hstep : (submitBody { st with loading := true } values env).2.2 =
          (transferStep { st with loading := true } values env
            (bridgeAddrOf st) (tokenAddrOf st values) amt true g []).2.2 := by
        simp [submitBody, hA, hG, hM, tokenAddrOf_set_loading,
          bridgeAddrOf_set_loading]
      rw [hstep, transferStep_calls _ _ _ _ _ _ _ _ _ _ hN]
      rfl
  · rcases hAp : env.approveSend with e | u
    · refine Or.inr (Or.inl ⟨hM, ?_⟩)
      rw [hcalls]
      simp [submitBody, hA, hG, hM, hAp, tokenAddrOf_set_loading,
        bridgeAddrOf_set_loading]
    · rcases hW : ethersWait env.approveReceipt with e2 | s2
      · refine Or.inr (Or.inl ⟨hM, ?_⟩)
        rw [hcalls]
        simp [submitBody, hA, hG, hM, hAp, hW, tokenAddrOf_set_loading,
          bridgeAddrOf_set_loading]
      · rcases hN : env.txCount with e | n
        · refine Or.inr (Or.inl ⟨hM, ?_⟩)
          rw [hcalls]
          have hstep : (submitBody { st with loading := true } values env).2.2 =
              (transferStep { st with loading := true } values env
                (bridgeAddrOf st) (tokenAddrOf st values) amt false g
                [ChainCall.approve (tokenAddrOf st values) (bridgeAddrOf st)
                  amt g 300000 none]).2.2 := by
            simp [submitBody, hA, hG, hM, hAp, hW, tokenAddrOf_set_loading,
              bridgeAddrOf_set_loading]
          rw [hstep, transferStep_calls_err _ _ _ _ _ _ _ _ _ _ hN]
        · refine Or.inr (Or.inr (Or.inr ⟨hM, n, ?_⟩))
          rw [hcalls]
          have hstep : (submitBody { st with loading := true } values env).2.2 =
              (transferStep { st with loading := true } values env
                (bridgeAddrOf st) (tokenAddrOf st values) amt false g
                [ChainCall.approve (tokenAddrOf st values) (bridgeAddrOf st)
                  amt g 300000 none]).2.2 := by
            simp [submitBody, hA, hG, hM, hAp, hW, tokenAddrOf_set_loading,
              bridgeAddrOf_set_loading]
          rw [hstep, transferStep_calls _ _ _ _ _ _ _ _ _ _ hN]
          rfl

/-- C9 (confirmed).  In every run, any token address handed to
requestTransfer as its first argument equals the handler's token-address
selection, which is the zero address exactly in native mode and the active
network's bridged-token address otherwise; every approval call targets that
same address, and approvals occur only outside native mode. -/
theorem c9_token_address (st : AppState) (values : FormValues)
    (env : SubmitEnv) (hp : st.provider ≠ none) (ha : st.account ≠ "") :
    (∀ tok ∈ transferTokenArgs (submitIndex st values env).calls,
      tok = tokenAddrOf st values) ∧
    (∀ tok ∈ approveTokenArgs (submitIndex st values env).calls,
      tok = tokenAddrOf st values) ∧
    (tokenAddrOf st values = AddressZero ↔
      values.transferType = "native") ∧
    (approveTokenArgs (submitIndex st values env).calls ≠ [] →
      ¬ values.transferType = "native") := by
  have hiff : tokenAddrOf st values = AddressZero ↔
      values.transferType = "native" := by
    by_cases hM : values.transferType = "native"
    · simp [tokenAddrOf, hM]
    · have hne : tokenAddrOf st values ≠ AddressZero := by
        unfold tokenAddrOf
        rw [if_neg hM]
        split_ifs <;> decide
      simp [hne, hM]
  obtain ⟨amt, g, hsh⟩ := submitIndex_calls_shape st values env hp ha
  rcases hsh with h | ⟨hM, h⟩ | ⟨hM, n, h⟩ | ⟨hM, n, h⟩
  · refine ⟨?_, ?_, hiff, ?_⟩ <;>
      simp [h, transferTokenArgs, approveTokenArgs]
  · refine ⟨?_, ?_, hiff, ?_⟩ <;>
      simp [h, transferTokenArgs, approveTokenArgs, hM]
  · refine ⟨?_, ?_, hiff, ?_⟩ <;>
      simp [h, transferTokenArgs, approveTokenArgs, hM]
  · refine ⟨?_, ?_, hiff, ?_⟩ <;>
      simp [h, transferTokenArgs, approveTokenArgs, hM]

/-- C9 witness: fungible-token run on the ethereum network. -/
theorem c9_witness :
    (∀ tok ∈ transferTokenArgs (submitIndex stW9 valsW9 envW9).calls,
      tok = tokenAddrOf stW9 valsW9) ∧
    (∀ tok ∈ approveTokenArgs (submitIndex stW9 valsW9 envW9).calls,
      tok = tokenAddrOf stW9 valsW9) ∧
    (tokenAddrOf stW9 valsW9 = AddressZero ↔
      valsW9.transferType = "native") ∧
    (approveTokenArgs (submitIndex stW9 valsW9 envW9).calls ≠ [] →
      ¬ valsW9.transferType = "native") :=
  c9_token_address stW9 valsW9 envW9 (by decide) (by decide)

/-- C10 (confirmed).  Past the connection guard, onSubmit always runs
setLoading(true) and, through the finally clause, setLoading(false) as its
last state event on every path, so the final state is never left busy. -/
theorem c10_loading_bracket (st : AppState) (values : FormValues)
    (env : SubmitEnv) (hp : st.provider ≠ none) (ha : st.account ≠ "") :
    (submitIndex st values env).loadingEvents = [true, false] ∧
    (submitIndex st values env).state.loading = false := by
  have hguard : ¬ (st.provider = none ∨ st.account = "") :=
    not_or.mpr ⟨hp, ha⟩
  unfold submitIndex
  rw [if_neg hguard]
  exact ⟨rfl, rfl⟩

/-- C10 witness at a concrete successful run. -/
theorem c10_witness :
    (submitIndex stW10 valsW10 envW10).loadingEvents = [true, false] ∧
    (submitIndex stW10 valsW10 envW10).state.loading = false :=
  c10_loading_bracket stW10 valsW10 envW10 (by decide) (by decide)
